import Mathlib

/-!
Verification of the generic dispatch engine of `alfred_omni_api.py` /
`config.py`: the config store, the time-bounded cache, the list-handler
pipeline, the throttle guard, the age formatter and the CLI mode dispatch.

The Python source is embedded shallowly:

* JSON scalar values become `JVal`; Python truthiness becomes `pyTruthy`.
* A Python dict is an association list `List (String × α)` with
  `pyDictGet` / `pyDictInsert` (insert replaces in place, matching
  `dict.update` semantics for lookups).
* Exceptions become `Except PyError`.
* The code base targets Python 2 (it is an Alfred-2-era workflow built on
  the Python-2-only `workflow` package), so `/` on two ints is embedded as
  integer (floor) division, while `float(x) / y` is exact rational division.
-/

set_option autoImplicit false

deriving instance DecidableEq for Except

namespace OmniApi

/-- A JSON-serializable scalar value as stored in the config file. -/
inductive JVal where
  | str (s : String)
  | num (n : Int)
  | bool (b : Bool)
  | null
  deriving DecidableEq, Repr

/-- Python exceptions raised by the embedded code. -/
inductive PyError where
  | ioError
  | valueError (msg : String)
  deriving DecidableEq, Repr

/-- Python truthiness of a value that may be absent (`None`). -/
def pyTruthy : Option JVal → Bool
  | none => false
  | some (JVal.str s) => s ≠ ""
  | some (JVal.num n) => n ≠ 0
  | some (JVal.bool b) => b
  | some JVal.null => false

/-- `dict.get(key)`: first binding for `key`, `None` when absent. -/
def pyDictGet {α : Type} : List (String × α) → String → Option α
  | [], _ => none
  | (k, v) :: t, key => if k = key then some v else pyDictGet t key

/-- Insertion as performed by `dict.update`: replace the binding in place
when the key is present, append otherwise. -/
def pyDictInsert {α : Type} : List (String × α) → String → α → List (String × α)
  | [], key, v => [(key, v)]
  | (k, w) :: t, key, v =>
      if k = key then (key, v) :: t else (k, w) :: pyDictInsert t key v

/-- The in-memory contents of the JSON config file: a flat mapping from
string keys to scalar values. -/
abbrev ConfigMap := List (String × JVal)

/-- The state of the backing `config_save` file as seen by `Config`. -/
inductive FileState where
  | absent
  | corrupt
  | valid (m : ConfigMap)
  deriving DecidableEq, Repr

/-- `Config.load_config`: `json.load` on the backing file.  Raises
`IOError` when the file is absent and `ValueError` when it does not parse
(Python 2 `json` signals parse failures with `ValueError`). -/
def load_config : FileState → Except PyError ConfigMap
  | FileState.absent => Except.error PyError.ioError
  | FileState.corrupt => Except.error (PyError.valueError "No JSON object could be decoded")
  | FileState.valid m => Except.ok m

/-- `Config.__init__`: if the backing file does not exist, initialize it to
`{}`; otherwise try `load_config`, reinitializing to `{}` on `ValueError`.
Returns the file state after construction. -/
def configInit : FileState → FileState
  | FileState.absent => FileState.valid []
  | FileState.corrupt => FileState.valid []
  | FileState.valid m => FileState.valid m

/-- `Config.get(key, enforce=True)` on an already-loaded mapping (lines
74–81 of `alfred_omni_api.py`): look the key up, raise `ValueError` naming
the key when `enforce` holds and the value is falsy, else return it. -/
def configGet (data : ConfigMap) (key : String) (enforce : Bool) :
    Except PyError (Option JVal) :=
  let value := pyDictGet data key
  if enforce ∧ ¬ pyTruthy value then
    Except.error (PyError.valueError
      ("No value found for \"" ++ key ++ "\". Try running config.py"))
  else
    Except.ok value

/-- `Config.set(**kwargs)`: load the mapping, `data.update(**kwargs)`
(each update key replacing any existing binding, later update keys
overwriting earlier ones), and rewrite the whole file. -/
def configSet (data : ConfigMap) (updates : List (String × JVal)) : ConfigMap :=
  updates.foldl (fun acc kv => pyDictInsert acc kv.1 kv.2) data

/-- `Config.get(key, enforce)` in full (lines 71–81): line 72 first
reloads the backing file via `load_config`, so a load failure — e.g. the
`ValueError` of a corrupt file — propagates to the caller regardless of
`enforce`; the loaded mapping is then consulted as in `configGet`. -/
def configGetFile (fs : FileState) (key : String) (enforce : Bool) :
    Except PyError (Option JVal) :=
  match load_config fs with
  | Except.error e => Except.error e
  | Except.ok data => configGet data key enforce

/-! ### Cache manager and list-handler pipeline -/

/-- A fetched item; the core treats items as opaque. -/
abbrev Item := String

/-- The cache record store: cache key ↦ (payload, fetch timestamp). -/
abbrev CacheStore := List (String × (List Item × Nat))

/-- Modelled from the spec: `Workflow.cached_data(key, fetch, max_age)` is
provided by the external `workflow` package, whose code is not part of this
repository.  Per §4.3 it looks up the record for `key`; if the record is
fresh (`now - fetched_at < max_age`) it returns the stored payload without
invoking `fetch`; if absent or stale it calls `fetch` once, stores the
result with the current timestamp and returns it, propagating fetch errors
unmodified and leaving the previous record untouched on failure.  The
returned flag records whether `fetch` was invoked. -/
def cached_data (store : CacheStore) (key : String)
    (fetch : Except PyError (List Item)) (maxAge : Nat) (now : Nat) :
    Except PyError (List Item × CacheStore × Bool) :=
  match pyDictGet store key with
  | some (payload, fetchedAt) =>
      if now - fetchedAt < maxAge then
        Except.ok (payload, store, false)
      else
        fetch.map (fun d => (d, pyDictInsert store key (d, now), true))
  | none => fetch.map (fun d => (d, pyDictInsert store key (d, now), true))

/-- The row shape handed to `workflow.add_item`. -/
structure DisplayRow where
  title : String
  subtitle : String
  actionValue : String
  iconWeb : Bool
  selectable : Bool
  deriving DecidableEq, Repr

/-- A concrete `ListHandler` subclass: its cache key and timeout together
with its `fetch`, `filtered_items` and `add_item` behaviours.  `fetch` and
`add_item` may raise; `add_item` contributes the rows it adds to the
workflow (possibly none, e.g. `MyJiveActivityHandler` suppresses some). -/
structure HandlerModel where
  cacheKey : String
  cacheTimeout : Nat
  fetch : Except PyError (List Item)
  filteredItems : String → List Item → Except PyError (List Item)
  addItem : Item → Except PyError (List DisplayRow)

/-- The `for item in items: self.add_item(item)` loop: items are rendered
in order, each contributing its rows to the accumulated workflow items;
the first exception aborts the loop. -/
def addItemsLoop (h : HandlerModel) : List Item → List DisplayRow →
    Except PyError (List DisplayRow)
  | [], acc => Except.ok acc
  | it :: rest, acc =>
      match h.addItem it with
      | Except.error e => Except.error e
      | Except.ok rs => addItemsLoop h rest (acc ++ rs)

/-- `ListHandler._run`: fetch via `cached_data`, filter when the query is
truthy (non-empty), then `add_item` each item in order.  Returns the rows
accumulated in the workflow and the cache store after the call; any
exception propagates. -/
def listHandler_run (h : HandlerModel) (query : String) (store : CacheStore)
    (now : Nat) : Except PyError (List DisplayRow × CacheStore) :=
  match cached_data store h.cacheKey h.fetch h.cacheTimeout now with
  | Except.error e => Except.error e
  | Except.ok (items0, store1, _) =>
      match (if query ≠ "" then h.filteredItems query items0 else Except.ok items0) with
      | Except.error e => Except.error e
      | Except.ok items =>
          match addItemsLoop h items [] with
          | Except.error e => Except.error e
          | Except.ok rows => Except.ok (rows, store1)

/-- `ListHandler.run`: `workflow.run(self._run)` then `send_feedback`.
Modelled from the spec: the `workflow` package's `Workflow.run` and
`send_feedback` are not part of this repository; per §4.4 an error raised
at any step terminates the invocation with a failure status and no partial
row emission, while success emits every accumulated row with status 0. -/
def listHandlerRun (h : HandlerModel) (query : String) (store : CacheStore)
    (now : Nat) : Nat × List DisplayRow :=
  match listHandler_run h query store now with
  | Except.ok (rows, _) => (0, rows)
  | Except.error _ => (1, [])

/-! ### Throttle guard -/

/-- Result of a throttled call: the sentinel `None` or the action's result. -/
inductive ThrottleResult where
  | skipped
  | ran (v : JVal)
  deriving DecidableEq, Repr

/-- `throttled(func)`'s inner wrapper.  `store1` is the config mapping at
the first read, `store2` the mapping as re-read after `time.sleep(1)` (a
concurrent writer may have changed it), `now` the value of `time.time()`
and `funcResult` the value `func` would return.  Mirrors the source: both
reads go through `config.get(key)` with `enforce` defaulting to `True`. -/
def throttledCall (name : String) (store1 store2 : ConfigMap) (now : Int)
    (funcResult : JVal) : Except PyError (ThrottleResult × ConfigMap) :=
  let key := "called_" ++ name
  match configGet store1 key true with
  | Except.error e => Except.error e
  | Except.ok val =>
      -- time.sleep(1); then `if val and config.get(key) != val` with
      -- Python's short-circuit evaluation of `and`
      match (if pyTruthy val then
               (configGet store2 key true).map (fun val2 => decide (val2 ≠ val))
             else Except.ok false) with
      | Except.error e => Except.error e
      | Except.ok changed =>
          if changed then
            Except.ok (ThrottleResult.skipped, store2)
          else
            Except.ok (ThrottleResult.ran funcResult, configSet store2 [(key, JVal.num now)])

/-! ### Age formatter

The source is Python 2, so `delta.days / 30`, `total_seconds / 3600` and
`total_seconds / 60` are integer floor divisions, while the year bucket
uses `float(delta.days) / 365` and renders it with one decimal place. -/

/-- Fixed-point rendering of `float(num) / den` with one decimal digit, as
Python's format spec `.1f` produces for the values reachable here: round
`num * 10 / den` to the nearest integer.  (`den` is 365 in the only use,
so exact half-way ties are impossible.) -/
def fmtFixed1 (num den : Nat) : String :=
  let n10 := num * 10
  let rounded := if den ≤ 2 * (n10 % den) then n10 / den + 1 else n10 / den
  toString (rounded / 10) ++ "." ++ toString (rounded % 10)

/-- `age_str(delta)` for a non-negative `delta` of `totalSeconds` seconds
(`delta.days` is then `totalSeconds / 86400` and `int(delta.total_seconds())`
is `totalSeconds`). -/
def age_str (totalSeconds : Nat) : String :=
  let days := totalSeconds / 86400
  if days > 365 then
    -- here `age = float(days) / 365`, so the pluralization test `age > 1`
    -- is exactly `365 < days` (cross-multiplying the exact rational)
    let unit := if 365 < days then "years" else "year"
    fmtFixed1 days 365 ++ " " ++ unit ++ " ago"
  else if days > 30 then
    let age := days / 30
    toString age ++ " " ++ (if age > 1 then "months" else "month") ++ " ago"
  else if days > 1 then
    toString days ++ " " ++ (if days > 1 then "days" else "day") ++ " ago"
  else if totalSeconds > 3600 then
    let age := totalSeconds / 3600
    toString age ++ " " ++ (if age > 1 then "hours" else "hour") ++ " ago"
  else if totalSeconds > 60 then
    let age := totalSeconds / 60
    toString age ++ " " ++ (if age > 1 then "minutes" else "minute") ++ " ago"
  else
    "just now"

/-! ### Cache keys

`ListHandler.cache_key` is the class name; `GithubRepoBaseHandler.cache_key`
is `'_'.join([self.__class__.__name__] + self.repo.split('/'))`.  Python's
`str.split(sep)` and `sep.join` are embedded at character level. -/

/-- Python 2 `s.split(sep)` for a one-character separator: splitting the
empty string yields `[""]`, and adjacent separators yield empty fields. -/
def pySplit (sep : Char) : List Char → List (List Char)
  | [] => [[]]
  | c :: cs =>
      match pySplit sep cs with
      | [] => [[c]]
      | h :: t => if c = sep then [] :: h :: t else (c :: h) :: t

/-- Python `sep.join(parts)` for a one-character separator. -/
def pyJoin (sep : Char) : List (List Char) → List Char
  | [] => []
  | h :: t => h ++ (t.map (fun p => sep :: p)).flatten

/-- `ListHandler.cache_key`: the handler's class name. -/
def listHandlerCacheKey (className : String) : String := className

/-- `GithubRepoBaseHandler.cache_key`:
`'_'.join([self.__class__.__name__] + self.repo.split('/'))`. -/
def githubRepoCacheKey (className repo : String) : String :=
  String.mk (pyJoin '_' (className.toList :: pySplit '/' repo.toList))

/-! ### CLI mode dispatch -/

/-- What a CLI command invocation does: run a named handler (or helper),
raise a usage error, or fall through and terminate successfully having done
nothing. -/
inductive CmdOutcome where
  | ranHandler (name : String)
  | usageError (msg : String)
  | noOp
  deriving DecidableEq, Repr

/-- The `jira` command: `--me` runs `JiraMyIssuesHandler`, otherwise the
function body falls through. -/
def jiraCmd (me : Bool) : CmdOutcome :=
  if me then CmdOutcome.ranHandler "JiraMyIssuesHandler" else CmdOutcome.noOp

/-- The `jive` command: `--activity` runs `MyJiveActivityHandler`,
otherwise the function body falls through. -/
def jiveCmd (activity : Bool) : CmdOutcome :=
  if activity then CmdOutcome.ranHandler "MyJiveActivityHandler" else CmdOutcome.noOp

/-- The `hackpad` command: `--pads` runs `HackpadsHandler`, otherwise the
function body falls through. -/
def hackpadCmd (pads : Bool) : CmdOutcome :=
  if pads then CmdOutcome.ranHandler "HackpadsHandler" else CmdOutcome.noOp

/-- The `trello` command: `--boards` runs `TrelloBoardsHandler`,
`--createcard` runs `trello_create_card`, otherwise falls through. -/
def trelloCmd (boards createcard : Bool) : CmdOutcome :=
  if boards then CmdOutcome.ranHandler "TrelloBoardsHandler"
  else if createcard then CmdOutcome.ranHandler "trello_create_card"
  else CmdOutcome.noOp

/-- The `github` command: `--prs`, `--commits` and `--emoji` run their
handlers; with none of them it raises `ValueError('I dunno!')`. -/
def githubCmd (prs commits emoji : Bool) : CmdOutcome :=
  if prs then CmdOutcome.ranHandler "GithubPrsHandler"
  else if commits then CmdOutcome.ranHandler "GithubCommitsHandler"
  else if emoji then CmdOutcome.ranHandler "GithubEmojiHandler"
  else CmdOutcome.usageError "I dunno!"

/-! ### Trello member id -/

/-- `TrelloBaseHandler.fetch_my_member_id`: read `trello_member_id` from
config with `enforce` defaulting to `True`; if the result is falsy, fall
back to fetching `me` over the network (`meId` is the id the network would
return) and storing it.  The returned flag records whether the network
fallback ran. -/
def fetch_my_member_id (store : ConfigMap) (meId : JVal) :
    Except PyError (Option JVal × ConfigMap × Bool) :=
  match configGet store "trello_member_id" true with
  | Except.error e => Except.error e
  | Except.ok memberId =>
      if ¬ pyTruthy memberId then
        Except.ok (some meId, configSet store [("trello_member_id", meId)], true)
      else
        Except.ok (memberId, store, false)

/-- The character substitution that `'_'.join(repo.split('/'))` amounts
to: every `'/'` becomes `'_'`. -/
def slashToUnderscore (c : Char) : Char := if c = '/' then '_' else c

/-- Inverse substitution used to recover an underscore-free repo name from
its cache-key suffix. -/
def underscoreToSlash (c : Char) : Char := if c = '_' then '/' else c

/-! ## Supporting lemmas -/

theorem pyDictGet_insert_self {α : Type} (m : List (String × α)) (k : String) (v : α) :
    pyDictGet (pyDictInsert m k v) k = some v := by
  induction m with
  | nil => simp [pyDictInsert, pyDictGet]
  | cons hd t ih =>
      obtain ⟨k0, v0⟩ := hd
      by_cases hk : k0 = k
      · simp [pyDictInsert, hk, pyDictGet]
      · simp [pyDictInsert, hk, pyDictGet, ih]

theorem pyDictGet_insert_other {α : Type} (m : List (String × α)) (k k_x : String) (v : α)
    (hne : k_x ≠ k) : pyDictGet (pyDictInsert m k v) k_x = pyDictGet m k_x := by
  have hne' : ¬ k = k_x := fun h => hne h.symm
  induction m with
  | nil => simp [pyDictInsert, pyDictGet, hne']
  | cons hd t ih =>
      obtain ⟨k0, v0⟩ := hd
      by_cases hk : k0 = k
      · subst hk
        simp [pyDictInsert, pyDictGet, hne']
      · simp only [pyDictInsert, hk, if_neg hk, pyDictGet]
        by_cases hx : k0 = k_x
        · simp [hx]
        · simp [hx, ih]

theorem pySplit_ne_nil (sep : Char) (l : List Char) : pySplit sep l ≠ [] := by
  cases l with
  | nil => simp [pySplit]
  | cons c cs =>
      simp only [pySplit]
      cases h : pySplit sep cs with
      | nil => simp
      | cons hd tl => by_cases hc : c = sep <;> simp [hc]

theorem pyJoin_cons_cons (sep : Char) (a b : List Char) (t : List (List Char)) :
    pyJoin sep (a :: b :: t) = a ++ sep :: pyJoin sep (b :: t) := by
  simp [pyJoin, List.flatten]

theorem pyJoin_cons_head (sep c : Char) (hd : List Char) (tl : List (List Char)) :
    pyJoin sep ((c :: hd) :: tl) = c :: pyJoin sep (hd :: tl) := by
  simp [pyJoin]

/-- Joining on `'_'` what was split on `'/'` replaces each slash by an
underscore. -/
theorem pyJoin_pySplit (l : List Char) :
    pyJoin '_' (pySplit '/' l) = l.map slashToUnderscore := by
  induction l with
  | nil => rfl
  | cons c cs ih =>
      cases h : pySplit '/' cs with
      | nil => exact absurd h (pySplit_ne_nil '/' cs)
      | cons hd tl =>
          rw [h] at ih
          by_cases hc : c = '/'
          · subst hc
            have hs : pySplit '/' ('/' :: cs) = [] :: hd :: tl := by
              simp [pySplit, h]
            rw [hs, pyJoin_cons_cons, ih]
            simp [slashToUnderscore]
          · have hs : pySplit '/' (c :: cs) = (c :: hd) :: tl := by
              simp [pySplit, h, hc]
            rw [hs, pyJoin_cons_head, ih]
            simp [slashToUnderscore, hc]

/-- The repo cache key, at character level: the class name, an
underscore, then the repo with each slash replaced by an underscore. -/
theorem githubRepoCacheKey_data (cls repo : String) :
    (githubRepoCacheKey cls repo).toList =
      cls.toList ++ '_' :: repo.toList.map slashToUnderscore := by
  show pyJoin '_' (cls.toList :: pySplit '/' repo.toList) =
    cls.toList ++ '_' :: repo.toList.map slashToUnderscore
  cases h : pySplit '/' repo.toList with
  | nil => exact absurd h (pySplit_ne_nil _ _)
  | cons hd tl =>
      rw [pyJoin_cons_cons, ← h, pyJoin_pySplit]

theorem append_underscore_cancel :
    ∀ (a b m1 m2 : List Char), '_' ∉ a → '_' ∉ b →
      a ++ '_' :: m1 = b ++ '_' :: m2 → a = b ∧ m1 = m2 := by
  intro a
  induction a with
  | nil =>
      intro b m1 m2 _ hb h
      cases b with
      | nil =>
          simp only [List.nil_append] at h
          injection h with _ h2
          exact ⟨rfl, h2⟩
      | cons d ds =>
          simp only [List.nil_append, List.cons_append] at h
          injection h with h1 _
          exact absurd (h1 ▸ List.mem_cons_self d ds) hb
  | cons c cs ih =>
      intro b m1 m2 ha hb h
      cases b with
      | nil =>
          simp only [List.cons_append, List.nil_append] at h
          injection h with h1 _
          exact absurd (h1 ▸ List.mem_cons_self c cs) ha
      | cons d ds =>
          simp only [List.cons_append] at h
          injection h with hcd htl
          have ha2 : '_' ∉ cs := fun hm => ha (List.mem_cons_of_mem c hm)
          have hb2 : '_' ∉ ds := fun hm => hb (List.mem_cons_of_mem d hm)
          obtain ⟨h1, h2⟩ := ih ds m1 m2 ha2 hb2 htl
          exact ⟨by rw [hcd, h1], h2⟩

theorem map_slashToUnderscore_inj (r1 r2 : List Char) (h1 : '_' ∉ r1) (h2 : '_' ∉ r2)
    (h : r1.map slashToUnderscore = r2.map slashToUnderscore) : r1 = r2 := by
  have inv : ∀ (l : List Char), '_' ∉ l → l.map (underscoreToSlash ∘ slashToUnderscore) = l := by
    intro l hl
    induction l with
    | nil => rfl
    | cons c cs ihc =>
        have hc : c ≠ '_' := fun he => hl (he ▸ List.mem_cons_self c cs)
        have hcs : '_' ∉ cs := fun hm => hl (List.mem_cons_of_mem c hm)
        simp only [List.map, ihc hcs, Function.comp]
        by_cases hs : c = '/'
        · simp [slashToUnderscore, underscoreToSlash, hs]
        · simp [slashToUnderscore, underscoreToSlash, hs, hc]
  calc r1 = r1.map (underscoreToSlash ∘ slashToUnderscore) := (inv r1 h1).symm
    _ = (r1.map slashToUnderscore).map underscoreToSlash := by rw [List.map_map]
    _ = (r2.map slashToUnderscore).map underscoreToSlash := by rw [h]
    _ = r2.map (underscoreToSlash ∘ slashToUnderscore) := by rw [List.map_map]
    _ = r2 := inv r2 h2

theorem string_toList_inj {s1 s2 : String} (h : s1.toList = s2.toList) : s1 = s2 := by
  cases s1
  cases s2
  exact congrArg String.mk (by simpa using h)

/-! ## Claim theorems -/

/-- Claim C1: freshness of `getOrFetch` (the spec-modelled
`Workflow.cached_data`).  On a fresh record the stored payload is returned
and the fetch function is not invoked (flag `false`, result independent of
the fetch function); on an absent or stale record the fetch function is
invoked exactly once, its result stored under the current timestamp and
returned (flag `true`); and in the two-calls-within-`T`-then-one-after
scenario the fetch runs on the first and third calls only. -/
theorem C1_cache_freshness :
    ∀ (st : CacheStore) (key : String) (fe : Except PyError (List Item))
      (p : List Item) (t T now : Nat) (f1 f2 f3 : List Item) (t0 t1 t2 : Nat),
      (pyDictGet st key = some (p, t) → now - t < T →
        cached_data st key fe T now = Except.ok (p, st, false))
      ∧ (pyDictGet st key = none →
        cached_data st key fe T now =
          fe.map (fun d => (d, pyDictInsert st key (d, now), true)))
      ∧ (pyDictGet st key = some (p, t) → ¬ (now - t < T) →
        cached_data st key fe T now =
          fe.map (fun d => (d, pyDictInsert st key (d, now), true)))
      ∧ (pyDictGet st key = none → t1 - t0 < T → T ≤ t2 - t0 →
        cached_data st key (Except.ok f1) T t0 =
          Except.ok (f1, pyDictInsert st key (f1, t0), true)
        ∧ cached_data (pyDictInsert st key (f1, t0)) key (Except.ok f2) T t1 =
            Except.ok (f1, pyDictInsert st key (f1, t0), false)
        ∧ cached_data (pyDictInsert st key (f1, t0)) key (Except.ok f3) T t2 =
            Except.ok (f3, pyDictInsert (pyDictInsert st key (f1, t0)) key (f3, t2), true)) := by
  intro st key fe p t T now f1 f2 f3 t0 t1 t2
  refine ⟨?_, ?_, ?_, ?_⟩
  · intro hl hf
    simp [cached_data, hl, hf]
  · intro hl
    simp [cached_data, hl]
  · intro hl hs
    simp [cached_data, hl, hs]
  · intro hl ht1 ht2
    refine ⟨?_, ?_, ?_⟩
    · simp [cached_data, hl, Except.map]
    · simp [cached_data, pyDictGet_insert_self, ht1]
    · simp [cached_data, pyDictGet_insert_self, Nat.not_lt.mpr ht2, Except.map]

/-- Witness for C1 at concrete inputs: a fresh hit at time 5 with ttl 10,
a miss on the empty store, a stale hit at time 10, and the
two-within-ttl-then-one-after scenario at times 0, 5, 10. -/
theorem C1_cache_freshness_witness :
    cached_data [("k", (["a"], 0))] "k" (Except.ok ["b"]) 10 5 =
      Except.ok (["a"], [("k", (["a"], 0))], false)
    ∧ cached_data [] "k" (Except.ok ["a"]) 10 0 =
        (Except.ok ["a"] : Except PyError (List Item)).map
          (fun d => (d, pyDictInsert [] "k" (d, 0), true))
    ∧ cached_data [("k", (["a"], 0))] "k" (Except.ok ["c"]) 10 10 =
        (Except.ok ["c"] : Except PyError (List Item)).map
          (fun d => (d, pyDictInsert [("k", (["a"], 0))] "k" (d, 10), true))
    ∧ (cached_data [] "k" (Except.ok ["a"]) 10 0 =
        Except.ok (["a"], pyDictInsert [] "k" (["a"], 0), true)
      ∧ cached_data (pyDictInsert [] "k" (["a"], 0)) "k" (Except.ok ["b"]) 10 5 =
          Except.ok (["a"], pyDictInsert [] "k" (["a"], 0), false)
      ∧ cached_data (pyDictInsert [] "k" (["a"], 0)) "k" (Except.ok ["c"]) 10 10 =
          Except.ok (["c"], pyDictInsert (pyDictInsert [] "k" (["a"], 0)) "k" (["c"], 10), true)) :=
  ⟨(C1_cache_freshness [("k", (["a"], 0))] "k" (Except.ok ["b"]) ["a"] 0 10 5
      [] [] [] 0 0 0).1 (by decide) (by decide),
   (C1_cache_freshness [] "k" (Except.ok ["a"]) [] 0 10 0 [] [] [] 0 0 0).2.1 (by decide),
   (C1_cache_freshness [("k", (["a"], 0))] "k" (Except.ok ["c"]) ["a"] 0 10 10
      [] [] [] 0 0 0).2.2.1 (by decide) (by decide),
   (C1_cache_freshness [] "k" (Except.ok []) [] 0 10 0 ["a"] ["b"] ["c"] 0 5 10).2.2.2
      (by decide) (by decide) (by decide)⟩

/-- Claim C5: the list pipeline is all-or-nothing.  If `_run` raises at
any step (fetch, filter, or render of any item) the invocation exits with
failure status 1 and zero rows are emitted (per the spec's host-boundary
contract for `Workflow.run`); on success every accumulated row is emitted
with status 0, including the zero-result case. -/
theorem C5_all_or_nothing :
    ∀ (h : HandlerModel) (q : String) (st : CacheStore) (now : Nat),
      (∀ e : PyError, listHandler_run h q st now = Except.error e →
        listHandlerRun h q st now = (1, []))
      ∧ (∀ (rows : List DisplayRow) (st2 : CacheStore),
        listHandler_run h q st now = Except.ok (rows, st2) →
        listHandlerRun h q st now = (0, rows)) := by
  intro h q st now
  constructor
  · intro e he
    simp [listHandlerRun, he]
  · intro rows st2 hr
    simp [listHandlerRun, hr]

/-- Witness for C5: a handler whose fetch raises emits nothing and exits 1;
a handler fetching an empty list emits nothing and exits 0. -/
theorem C5_all_or_nothing_witness :
    listHandlerRun
      ⟨"k", 600, Except.error PyError.ioError, fun _ i => Except.ok i, fun _ => Except.ok []⟩
      "" [] 0 = (1, [])
    ∧ listHandlerRun
        ⟨"k", 600, Except.ok [], fun _ i => Except.ok i, fun _ => Except.ok []⟩
        "" [] 0 = (0, []) :=
  ⟨(C5_all_or_nothing
      ⟨"k", 600, Except.error PyError.ioError, fun _ i => Except.ok i, fun _ => Except.ok []⟩
      "" [] 0).1 PyError.ioError rfl,
   (C5_all_or_nothing
      ⟨"k", 600, Except.ok [], fun _ i => Except.ok i, fun _ => Except.ok []⟩
      "" [] 0).2 [] (pyDictInsert [] "k" ([], 0)) rfl⟩

/-- Claim C2, counterexample: the claim asserts that loading the
configuration never raises at any point in the process lifetime, but a
`load_config` call on a corrupted backing file (any call after
construction, e.g. from `get` or `set`) propagates the JSON parse error
instead of self-healing. -/
theorem C2_counterexample :
    load_config FileState.corrupt =
      Except.error (PyError.valueError "No JSON object could be decoded") := rfl

/-- Claim C2 as amended: loading never raises at store construction —
`Config.__init__` self-heals an absent or corrupt backing file by
reinitializing it to the empty mapping and keeps a well-formed mapping
unchanged; a well-formed file loads to its mapping; but after
construction `load_config` propagates a parse error on a corrupt file
rather than self-healing. -/
theorem C2_load_self_heals_at_construction :
    configInit FileState.absent = FileState.valid []
    ∧ configInit FileState.corrupt = FileState.valid []
    ∧ (∀ m : ConfigMap, configInit (FileState.valid m) = FileState.valid m)
    ∧ (∀ m : ConfigMap, load_config (FileState.valid m) = Except.ok m)
    ∧ (∃ e : PyError, load_config FileState.corrupt = Except.error e) :=
  ⟨rfl, rfl, fun _ => rfl, fun _ => rfl, ⟨_, rfl⟩⟩

/-- Claim C3, counterexample: the claim says `Config.get(k,
enforce=false)` never fails, but `get` first executes
`data = self.load_config()` (line 72), which raises `ValueError` on a
corrupt backing file regardless of `enforce` — a state reachable after
construction, since `set_config` truncates the file before rewriting it
and nothing re-heals it. -/
theorem C3_counterexample :
    configGetFile FileState.corrupt "k" false =
      Except.error (PyError.valueError "No JSON object could be decoded") := rfl

/-- Claim C3 as amended: on a well-formed backing file, `Config.get(k,
enforce=True)` returns the stored value when it is present and truthy and
raises a `ValueError` naming `k` when the value is absent or falsy, while
`Config.get(k, enforce=False)` never raises and returns the (possibly
absent) stored value; on a corrupt backing file `get` propagates the
parse error regardless of `enforce`. -/
theorem C3_get_enforce_semantics :
    ∀ (m : ConfigMap) (k : String),
      (∀ v : JVal, pyDictGet m k = some v → pyTruthy (some v) = true →
        configGetFile (FileState.valid m) k true = Except.ok (some v))
      ∧ (pyTruthy (pyDictGet m k) = false →
        configGetFile (FileState.valid m) k true = Except.error (PyError.valueError
          ("No value found for \"" ++ k ++ "\". Try running config.py")))
      ∧ configGetFile (FileState.valid m) k false = Except.ok (pyDictGet m k)
      ∧ (∀ e : Bool, ∃ err : PyError,
          configGetFile FileState.corrupt k e = Except.error err) := by
  intro m k
  refine ⟨?_, ?_, ?_, ?_⟩
  · intro v hv ht
    simp [configGetFile, load_config, configGet, hv, ht]
  · intro hf
    simp [configGetFile, load_config, configGet, hf]
  · simp [configGetFile, load_config, configGet]
  · intro e
    exact ⟨PyError.valueError "No JSON object could be decoded", rfl⟩

/-- Witness for C3 at concrete inputs over a well-formed backing file. -/
theorem C3_get_enforce_semantics_witness :
    configGetFile (FileState.valid [("a", JVal.str "x")]) "a" true =
      Except.ok (some (JVal.str "x"))
    ∧ configGetFile (FileState.valid [("a", JVal.str "x")]) "b" true =
        Except.error (PyError.valueError
          ("No value found for \"" ++ "b" ++ "\". Try running config.py"))
    ∧ configGetFile (FileState.valid [("a", JVal.str "x")]) "b" false =
        Except.ok (pyDictGet [("a", JVal.str "x")] "b") :=
  ⟨(C3_get_enforce_semantics [("a", JVal.str "x")] "a").1 (JVal.str "x") (by decide) (by decide),
   (C3_get_enforce_semantics [("a", JVal.str "x")] "b").2.1 (by decide),
   (C3_get_enforce_semantics [("a", JVal.str "x")] "b").2.2.1⟩

/-- Claim C4, counterexample: the claim quantifies over every
JSON-serializable scalar `v`, but for the falsy scalar `0`,
`Config.set(k=0)` followed by `Config.get(k)` (with `enforce` defaulting
to `True`) raises a `ValueError` instead of returning `0`. -/
theorem C4_counterexample :
    configSet [] [("k", JVal.num 0)] = [("k", JVal.num 0)]
    ∧ configGet (configSet [] [("k", JVal.num 0)]) "k" true =
        Except.error (PyError.valueError "No value found for \"k\". Try running config.py") := by
  exact ⟨rfl, by decide⟩

/-- Claim C4 as amended: `set({k: v})` followed by `get(k)` returns `v`
for every truthy scalar `v` (for falsy `v` the default-`enforce` `get`
raises, while `get(k, enforce=False)` still returns `v`); `set` merges
into the existing mapping — keys other than `k` keep their previous
values, and later update keys overwrite earlier ones. -/
theorem C4_set_get_roundtrip :
    ∀ (m : ConfigMap) (k : String) (v : JVal),
      (pyTruthy (some v) = true →
        configGet (configSet m [(k, v)]) k true = Except.ok (some v))
      ∧ configGet (configSet m [(k, v)]) k false = Except.ok (some v)
      ∧ (∀ k2 : String, k2 ≠ k → pyDictGet (configSet m [(k, v)]) k2 = pyDictGet m k2)
      ∧ (∀ v2 : JVal, pyDictGet (configSet m [(k, v), (k, v2)]) k = some v2) := by
  intro m k v
  have hset : configSet m [(k, v)] = pyDictInsert m k v := rfl
  refine ⟨?_, ?_, ?_, ?_⟩
  · intro ht
    simp [configGet, hset, pyDictGet_insert_self, ht]
  · simp [configGet, hset, pyDictGet_insert_self]
  · intro k2 hne
    rw [hset]
    exact pyDictGet_insert_other m k k2 v hne
  · intro v2
    have h2 : configSet m [(k, v), (k, v2)] = pyDictInsert (pyDictInsert m k v) k v2 := rfl
    rw [h2]
    exact pyDictGet_insert_self (pyDictInsert m k v) k v2

/-- Witness for C4 at concrete inputs. -/
theorem C4_set_get_roundtrip_witness :
    configGet (configSet [] [("k", JVal.str "v")]) "k" true = Except.ok (some (JVal.str "v"))
    ∧ configGet (configSet [] [("k", JVal.str "v")]) "k" false = Except.ok (some (JVal.str "v"))
    ∧ pyDictGet (configSet [("o", JVal.num 7)] [("k", JVal.str "v")]) "o" =
        pyDictGet [("o", JVal.num 7)] "o"
    ∧ pyDictGet (configSet [] [("k", JVal.str "v"), ("k", JVal.str "w")]) "k" =
        some (JVal.str "w") :=
  ⟨(C4_set_get_roundtrip [] "k" (JVal.str "v")).1 (by decide),
   (C4_set_get_roundtrip [] "k" (JVal.str "v")).2.1,
   (C4_set_get_roundtrip [("o", JVal.num 7)] "k" (JVal.str "v")).2.2.1 "o" (by decide),
   (C4_set_get_roundtrip [] "k" (JVal.str "v")).2.2.2 (JVal.str "w")⟩

/-- Claim C6, counterexample: the claim says 90 minutes formats as
`"1.5 hours ago"`, but the hour bucket uses Python 2 integer division
(`5400 / 3600 = 1`), so the code produces `"1 hour ago"`. -/
theorem C6_counterexample :
    age_str (90 * 60) = "1 hour ago" ∧ age_str (90 * 60) ≠ "1.5 hours ago" := by decide

/-- Claim C6 as amended: 30 seconds → `"just now"`, 5 minutes →
`"5 minutes ago"`, 90 minutes → `"1 hour ago"` (integer division in the
hour bucket), 2 days → `"2 days ago"`, 400 days → `"1.1 years ago"`. -/
theorem C6_age_boundaries :
    age_str 30 = "just now"
    ∧ age_str (5 * 60) = "5 minutes ago"
    ∧ age_str (90 * 60) = "1 hour ago"
    ∧ age_str (2 * 86400) = "2 days ago"
    ∧ age_str (400 * 86400) = "1.1 years ago" := by decide

/-- Claim C7, counterexample: the claim says two instances addressing
different logical resources never produce equal cache keys, but the keys
of `GithubPrsHandler('a/b')` and `GithubPrsHandler('a_b')` — two distinct
repository identifiers — coincide, because `'_'.join(repo.split('/'))`
conflates a slash with an underscore. -/
theorem C7_counterexample :
    githubRepoCacheKey "GithubPrsHandler" "a/b" = githubRepoCacheKey "GithubPrsHandler" "a_b"
    ∧ ("a/b" : String) ≠ "a_b" := by
  constructor
  · rfl
  · decide

/-- Claim C7 as amended: cache keys are deterministic (equal class and
repo give equal keys), and isolation holds for class names and repository
identifiers that contain no underscore — under that restriction two
repo-scoped keys are equal exactly when both the class and the repo
coincide, and a repo-scoped key never equals the plain class-name key of
a `ListHandler`; repository identifiers that differ only by interchanging
`'/'` and `'_'` (e.g. `a/b` vs `a_b`) do share a key. -/
theorem C7_cache_key_isolation :
    ∀ (cls1 cls2 r1 r2 : String),
      '_' ∉ cls1.toList → '_' ∉ cls2.toList → '_' ∉ r1.toList → '_' ∉ r2.toList →
      ((githubRepoCacheKey cls1 r1 = githubRepoCacheKey cls2 r2) ↔ (cls1 = cls2 ∧ r1 = r2))
      ∧ githubRepoCacheKey cls1 r1 ≠ listHandlerCacheKey cls2 := by
  intro cls1 cls2 r1 r2 h1 h2 h3 h4
  constructor
  · constructor
    · intro heq
      have hd : (githubRepoCacheKey cls1 r1).toList = (githubRepoCacheKey cls2 r2).toList := by
        rw [heq]
      rw [githubRepoCacheKey_data, githubRepoCacheKey_data] at hd
      obtain ⟨hc, hm⟩ := append_underscore_cancel cls1.toList cls2.toList _ _ h1 h2 hd
      exact ⟨string_toList_inj hc,
        string_toList_inj (map_slashToUnderscore_inj r1.toList r2.toList h3 h4 hm)⟩
    · rintro ⟨rfl, rfl⟩
      rfl
  · intro heq
    have hd := congrArg String.toList heq
    rw [githubRepoCacheKey_data] at hd
    have hmem : '_' ∈ (listHandlerCacheKey cls2).toList := by
      rw [← hd]
      exact List.mem_append_right _ (List.mem_cons_self _ _)
    exact h2 hmem

/-- Witness for C7: the pull-request and commit handlers on the same repo
get distinct keys, and the same class and repo always collide. -/
theorem C7_cache_key_isolation_witness :
    ((githubRepoCacheKey "GithubPrsHandler" "harveyr/alfred" =
        githubRepoCacheKey "GithubCommitsHandler" "harveyr/alfred") ↔
      (("GithubPrsHandler" : String) = "GithubCommitsHandler"
        ∧ ("harveyr/alfred" : String) = "harveyr/alfred"))
    ∧ githubRepoCacheKey "GithubPrsHandler" "harveyr/alfred" ≠
        listHandlerCacheKey "GithubCommitsHandler" :=
  C7_cache_key_isolation "GithubPrsHandler" "GithubCommitsHandler"
    "harveyr/alfred" "harveyr/alfred" (by decide) (by decide) (by decide) (by decide)

/-- Claim C8: the code contradicts the claimed (and specified) contract.
On a first invocation the persisted `called_<name>` timestamp is absent —
and it can only ever be written by the guard itself, later in the same
function — so `config.get(key)` with `enforce` defaulting to `True`
raises a `ValueError` before the sleep: the guard returns an error of its
own rather than the action's result or the skipped sentinel. -/
theorem C8_throttle_first_invocation_raises :
    throttledCall "x" [] [] 0 (JVal.num 1) =
      Except.error (PyError.valueError "No value found for \"called_x\". Try running config.py") := by
  decide

/-- Claim C9, counterexample: with no mode flag set, the `jira`, `jive`,
`hackpad` and `trello` commands fall through their dispatch bodies and
terminate successfully having produced nothing, instead of raising a
usage error. -/
theorem C9_counterexample :
    jiraCmd false = CmdOutcome.noOp
    ∧ jiveCmd false = CmdOutcome.noOp
    ∧ hackpadCmd false = CmdOutcome.noOp
    ∧ trelloCmd false false = CmdOutcome.noOp := by decide

/-- Claim C9 as amended: only the `github` command treats an invocation
with no recognized mode flag as a usage error (`ValueError('I dunno!')`),
raised before any fetch; `jira`, `jive`, `hackpad` and `trello` instead
terminate successfully with no handler run and no output. -/
theorem C9_mode_dispatch :
    githubCmd false false false = CmdOutcome.usageError "I dunno!"
    ∧ jiraCmd false = CmdOutcome.noOp
    ∧ jiveCmd false = CmdOutcome.noOp
    ∧ hackpadCmd false = CmdOutcome.noOp
    ∧ trelloCmd false false = CmdOutcome.noOp := by decide

/-- Claim C10: whenever `TrelloBaseHandler.fetch_my_member_id` returns
(rather than raising), the network fallback did not run, the config store
is unchanged, and the returned id is the stored `trello_member_id`, which
is truthy — the `if not member_id` branch is unreachable because
`config.get` with `enforce` defaulting to `True` only returns truthy
values. -/
theorem C10_member_fallback_unreachable :
    ∀ (store : ConfigMap) (meId : JVal) (v : Option JVal) (st2 : ConfigMap) (b : Bool),
      fetch_my_member_id store meId = Except.ok (v, st2, b) →
      b = false ∧ st2 = store ∧ v = pyDictGet store "trello_member_id"
        ∧ pyTruthy v = true := by
  intro store meId v st2 b h
  cases ht : pyTruthy (pyDictGet store "trello_member_id") with
  | false =>
      exfalso
      simp [fetch_my_member_id, configGet, ht] at h
  | true =>
      simp [fetch_my_member_id, configGet, ht] at h
      obtain ⟨h1, h2, h3⟩ := h
      simp_all

/-- Witness for C10 at a concrete store holding a truthy member id. -/
theorem C10_member_fallback_unreachable_witness :
    false = false
    ∧ [("trello_member_id", JVal.str "m")] = [("trello_member_id", JVal.str "m")]
    ∧ some (JVal.str "m") = pyDictGet [("trello_member_id", JVal.str "m")] "trello_member_id"
    ∧ pyTruthy (some (JVal.str "m")) = true :=
  C10_member_fallback_unreachable [("trello_member_id", JVal.str "m")] (JVal.str "n")
    (some (JVal.str "m")) [("trello_member_id", JVal.str "m")] false (by decide)

end OmniApi
